import Mathlib

/-!
Verification development for the AZen closed-loop biofeedback engine.

The definitions below are shallow embeddings of the TypeScript sources:
- `src/services/AdaptiveStateEstimator.ts` (predict / correct Kalman-style filter),
- the rPPG worker (`fft.worker`),
- `CameraVitalsEngine` (vitals decay and worker-response mapping),
- the `SafetyConfig` constants,
- and a spec-modelled fragment of the kernel safety guard (the kernel source file
  itself is not part of this snapshot; only its tests and config are).

JavaScript `number` is modelled by `ℝ`; `undefined`-able fields by `Option ℝ`.
-/

set_option maxHeartbeats 1000000

noncomputable section

namespace AZen

/-! ## Data model (src/types.ts) -/

inductive UserInteraction
  | pause
  | resume
  | touch
deriving DecidableEq

inductive VisibilityState
  | visible
  | hidden
deriving DecidableEq

structure Observation where
  timestamp : ℝ
  delta_time : ℝ
  user_interaction : Option UserInteraction
  visibilty_state : VisibilityState
  heart_rate : Option ℝ
  hr_confidence : Option ℝ
  respiration_rate : Option ℝ
  stress_index : Option ℝ
  facial_valence : Option ℝ

structure BeliefState where
  arousal : ℝ
  attention : ℝ
  rhythm_alignment : ℝ
  valence : ℝ
  arousal_variance : ℝ
  attention_variance : ℝ
  rhythm_variance : ℝ
  prediction_error : ℝ
  innovation : ℝ
  mahalanobis_distance : ℝ
  confidence : ℝ

/-! ## AdaptiveStateEstimator (src/services/AdaptiveStateEstimator.ts) -/

structure EstimatorConfig where
  alpha : ℝ
  adaptive_r : Bool
  r_adaptation_rate : ℝ
  q_base : ℝ
  r_base : ℝ
  outlier_threshold : ℝ

/-- The constructor defaults of `AdaptiveStateEstimator`. -/
def defaultConfig : EstimatorConfig :=
  { alpha := 1e-3
    adaptive_r := true
    r_adaptation_rate := 0.2
    q_base := 0.01
    r_base := 0.15
    outlier_threshold := 3.0 }

structure TargetState where
  arousal : ℝ
  attention : ℝ
  rhythm_alignment : ℝ
  valence : ℝ

def targetParasympathetic : TargetState := ⟨0.2, 0.5, 0.8, 0.6⟩

def targetBalanced : TargetState := ⟨0.4, 0.7, 0.9, 0.5⟩

def targetSympathetic : TargetState := ⟨0.7, 0.8, 0.6, 0.7⟩

def targetDefault : TargetState := ⟨0.5, 0.6, 0.7, 0.5⟩

/-- The constructor's initial belief. -/
def initialBelief : BeliefState :=
  { arousal := 0.5
    attention := 0.5
    rhythm_alignment := 0.0
    valence := 0.0
    arousal_variance := 0.2
    attention_variance := 0.2
    rhythm_variance := 0.3
    prediction_error := 0.0
    innovation := 0.0
    mahalanobis_distance := 0.0
    confidence := 0.0 }

def TAU_AROUSAL : ℝ := 15.0

def TAU_ATTENTION : ℝ := 5.0

def TAU_RHYTHM : ℝ := 10.0

def TAU_VALENCE : ℝ := 8.0

/-- The clamp helper: `Math.max(min, Math.min(max, value))`. -/
def clamp (value lo hi : ℝ) : ℝ := max lo (min hi value)

/-- The predict step of `AdaptiveStateEstimator.update`. -/
def predict (cfg : EstimatorConfig) (target : TargetState) (belief : BeliefState)
    (dt : ℝ) : BeliefState :=
  let alpha_arousal := 1 - Real.exp (-dt / TAU_AROUSAL)
  let alpha_attention := 1 - Real.exp (-dt / TAU_ATTENTION)
  let alpha_rhythm := 1 - Real.exp (-dt / TAU_RHYTHM)
  let alpha_valence := 1 - Real.exp (-dt / TAU_VALENCE)
  let Q := cfg.q_base * dt
  { arousal := clamp (belief.arousal + alpha_arousal * (target.arousal - belief.arousal)) 0 1
    attention :=
      clamp (belief.attention + alpha_attention * (target.attention - belief.attention)) 0 1
    rhythm_alignment :=
      clamp (belief.rhythm_alignment +
        alpha_rhythm * (target.rhythm_alignment - belief.rhythm_alignment)) 0 1
    valence := clamp (belief.valence + alpha_valence * (target.valence - belief.valence)) (-1) 1
    arousal_variance := belief.arousal_variance + Q
    attention_variance := belief.attention_variance + Q
    rhythm_variance := belief.rhythm_variance + Q
    prediction_error := 0
    innovation := 0
    mahalanobis_distance := 0
    confidence := 0 }

/-- The measured arousal derived from heart rate (fused with stress index when present),
clamped to `[0,1]`. -/
def measuredArousal (obs : Observation) (hr : ℝ) : ℝ :=
  let m0 := (hr - 50) / 70
  let m1 :=
    match obs.stress_index with
    | some si => 0.6 * m0 + 0.4 * min 1 (si / 300)
    | none => m0
  clamp m1 0 1

/-- Measurement noise `R`: base value plus the adaptive confidence penalty. -/
def arousalR (cfg : EstimatorConfig) (c : ℝ) : ℝ :=
  cfg.r_base + (if cfg.adaptive_r then (1 - c) * cfg.r_adaptation_rate else 0)

/-- The arousal-correction block of `AdaptiveStateEstimator.correct`; returns the
updated record together with the local `currentInnovation` and `mahalanobis` values. -/
def arousalStep (cfg : EstimatorConfig) (predicted : BeliefState) (obs : Observation) :
    BeliefState × ℝ × ℝ :=
  match obs.heart_rate, obs.hr_confidence with
  | some hr, some c =>
    if 0.3 < c then
      let measured := measuredArousal obs hr
      let R := arousalR cfg c
      let S := predicted.arousal_variance + R
      let K := predicted.arousal_variance / S
      let innov := measured - predicted.arousal
      let mah := Real.sqrt (innov * innov / S)
      if mah < cfg.outlier_threshold then
        ({ predicted with
            arousal := predicted.arousal + K * innov
            arousal_variance := (1 - K) * predicted.arousal_variance }, innov, mah)
      else
        ({ predicted with arousal_variance := predicted.arousal_variance + 0.01 }, 0, mah)
    else (predicted, 0, 0)
  | some _, none => (predicted, 0, 0)
  | none, _ => (predicted, 0, 0)

/-- The valence-correction block of `correct`. -/
def valenceStep (b : BeliefState) (obs : Observation) : BeliefState :=
  match obs.facial_valence with
  | some fv => { b with valence := 0.8 * b.valence + 0.2 * fv }
  | none => b

/-- The attention/rhythm block of `correct`. -/
def attentionStep (predicted b : BeliefState) (obs : Observation) (dt : ℝ) : BeliefState :=
  if obs.user_interaction = some UserInteraction.pause ∨
      obs.visibilty_state = VisibilityState.hidden then
    { b with attention := predicted.attention * 0.95 }
  else
    { b with attention := min 1 (b.attention + 0.15 * dt) }

/-- The correct step, `AdaptiveStateEstimator.correct`. -/
def correct (cfg : EstimatorConfig) (predicted : BeliefState) (obs : Observation)
    (dt : ℝ) : BeliefState :=
  let step := arousalStep cfg predicted obs
  let c2 := valenceStep step.1 obs
  let c3 := attentionStep predicted c2 obs dt
  { c3 with
    innovation := step.2.1
    mahalanobis_distance := step.2.2
    arousal := clamp c3.arousal 0 1
    attention := clamp c3.attention 0 1
    rhythm_alignment := clamp c3.rhythm_alignment 0 1
    valence := clamp c3.valence (-1) 1 }

def computePredictionError (target : TargetState) (state : BeliefState) : ℝ :=
  Real.sqrt (0.5 * (state.arousal - target.arousal) ^ 2 +
    0.5 * (state.rhythm_alignment - target.rhythm_alignment) ^ 2)

/-- The derived confidence, `computeConfidence`; `Math.pow(x, 0.5)` is `Real.sqrt` on the nonnegative
products produced here. -/
def computeConfidence (state : BeliefState) (obs : Observation) : ℝ :=
  let certainty := 1 - min 1 ((state.arousal_variance + state.attention_variance) / 2)
  let sensor_quality := obs.hr_confidence.getD 0.5
  clamp (Real.sqrt (certainty * sensor_quality)) 0 1

/-- The full `AdaptiveStateEstimator.update` as a pure function of the estimator state. -/
def update (cfg : EstimatorConfig) (target : TargetState) (belief : BeliefState)
    (obs : Observation) (dt : ℝ) : BeliefState :=
  let predicted := predict cfg target belief dt
  let corrected := correct cfg predicted obs dt
  { corrected with
    prediction_error := computePredictionError target corrected
    confidence := computeConfidence corrected obs }

/-! ### Basic clamp lemmas -/

theorem le_clamp (v lo hi : ℝ) : lo ≤ clamp v lo hi := le_max_left _ _

theorem clamp_le (v lo hi : ℝ) (h : lo ≤ hi) : clamp v lo hi ≤ hi :=
  max_le h (min_le_left _ _)

theorem clamp_of_mem {v lo hi : ℝ} (h1 : lo ≤ v) (h2 : v ≤ hi) : clamp v lo hi = v := by
  unfold clamp
  rw [min_eq_right h2, max_eq_right h1]

theorem clamp_idem (v lo hi : ℝ) (h : lo ≤ hi) :
    clamp (clamp v lo hi) lo hi = clamp v lo hi :=
  clamp_of_mem (le_clamp v lo hi) (clamp_le v lo hi h)

/-! ### Shape lemmas: each correction block only touches its own fields -/

theorem arousalStep_shape (cfg : EstimatorConfig) (predicted : BeliefState)
    (obs : Observation) :
    ∃ a v i m, arousalStep cfg predicted obs =
      ({ predicted with arousal := a, arousal_variance := v }, i, m) := by
  unfold arousalStep
  rcases obs.heart_rate with _ | hr
  · exact ⟨predicted.arousal, predicted.arousal_variance, 0, 0, rfl⟩
  rcases obs.hr_confidence with _ | c
  · exact ⟨predicted.arousal, predicted.arousal_variance, 0, 0, rfl⟩
  dsimp only
  split
  · split
    · exact ⟨_, _, _, _, rfl⟩
    · exact ⟨predicted.arousal, _, 0, _, rfl⟩
  · exact ⟨predicted.arousal, predicted.arousal_variance, 0, 0, rfl⟩

theorem valenceStep_shape (b : BeliefState) (obs : Observation) :
    ∃ vl, valenceStep b obs = { b with valence := vl } := by
  unfold valenceStep
  cases obs.facial_valence
  · exact ⟨b.valence, rfl⟩
  · exact ⟨_, rfl⟩

theorem attentionStep_shape (predicted b : BeliefState) (obs : Observation) (dt : ℝ) :
    ∃ att, attentionStep predicted b obs dt = { b with attention := att } := by
  unfold attentionStep
  split
  · exact ⟨_, rfl⟩
  · exact ⟨_, rfl⟩

/-- If `hr_confidence` is absent or at most 0.3, the arousal block is skipped. -/
theorem arousalStep_eq_of_low_conf (cfg : EstimatorConfig) (predicted : BeliefState)
    (obs : Observation) (h : ∀ c, obs.hr_confidence = some c → c ≤ 0.3) :
    arousalStep cfg predicted obs = (predicted, 0, 0) := by
  unfold arousalStep
  rcases hhr : obs.heart_rate with _ | hr
  · rfl
  rcases hc : obs.hr_confidence with _ | c
  · rfl
  dsimp only
  rw [if_neg (not_lt.mpr (h c hc))]

/-! ### Definitional projections of `update` -/

theorem update_arousal_def (cfg : EstimatorConfig) (target : TargetState)
    (belief : BeliefState) (obs : Observation) (dt : ℝ) :
    (update cfg target belief obs dt).arousal =
      clamp (attentionStep (predict cfg target belief dt)
        (valenceStep (arousalStep cfg (predict cfg target belief dt) obs).1 obs)
        obs dt).arousal 0 1 := rfl

theorem update_arousal_variance_def (cfg : EstimatorConfig) (target : TargetState)
    (belief : BeliefState) (obs : Observation) (dt : ℝ) :
    (update cfg target belief obs dt).arousal_variance =
      (attentionStep (predict cfg target belief dt)
        (valenceStep (arousalStep cfg (predict cfg target belief dt) obs).1 obs)
        obs dt).arousal_variance := rfl

theorem update_attention_variance_def (cfg : EstimatorConfig) (target : TargetState)
    (belief : BeliefState) (obs : Observation) (dt : ℝ) :
    (update cfg target belief obs dt).attention_variance =
      (attentionStep (predict cfg target belief dt)
        (valenceStep (arousalStep cfg (predict cfg target belief dt) obs).1 obs)
        obs dt).attention_variance := rfl

theorem update_rhythm_variance_def (cfg : EstimatorConfig) (target : TargetState)
    (belief : BeliefState) (obs : Observation) (dt : ℝ) :
    (update cfg target belief obs dt).rhythm_variance =
      (attentionStep (predict cfg target belief dt)
        (valenceStep (arousalStep cfg (predict cfg target belief dt) obs).1 obs)
        obs dt).rhythm_variance := rfl

theorem update_confidence_def (cfg : EstimatorConfig) (target : TargetState)
    (belief : BeliefState) (obs : Observation) (dt : ℝ) :
    (update cfg target belief obs dt).confidence =
      computeConfidence (correct cfg (predict cfg target belief dt) obs dt) obs := rfl

/-! ## C4 -/

/-- C4: for every configuration, target, prior belief, observation and dt, the
BeliefState returned by `update` has its point estimates inside their valid
ranges: arousal, attention and rhythm_alignment in `[0,1]`, valence in `[-1,1]`
(clamping is applied after the predict and correct steps). -/
theorem update_point_estimates_in_range (cfg : EstimatorConfig) (target : TargetState)
    (belief : BeliefState) (obs : Observation) (dt : ℝ) :
    (0 ≤ (update cfg target belief obs dt).arousal ∧
      (update cfg target belief obs dt).arousal ≤ 1) ∧
    (0 ≤ (update cfg target belief obs dt).attention ∧
      (update cfg target belief obs dt).attention ≤ 1) ∧
    (0 ≤ (update cfg target belief obs dt).rhythm_alignment ∧
      (update cfg target belief obs dt).rhythm_alignment ≤ 1) ∧
    (-1 ≤ (update cfg target belief obs dt).valence ∧
      (update cfg target belief obs dt).valence ≤ 1) := by
  refine ⟨⟨?_, ?_⟩, ⟨?_, ?_⟩, ⟨?_, ?_⟩, ⟨?_, ?_⟩⟩ <;>
    first
      | exact le_clamp _ _ _
      | exact clamp_le _ _ _ (by norm_num)

/-! ## C5 -/

/-- C5: when `hr_confidence` is absent or at most 0.3, the arousal point estimate
and the arousal variance returned by `update` are exactly the predict-step values:
first-order relaxation toward the protocol target, and `q_base * dt` variance
growth, with no measurement correction. -/
theorem update_arousal_of_low_conf (cfg : EstimatorConfig) (target : TargetState)
    (belief : BeliefState) (obs : Observation) (dt : ℝ)
    (h : ∀ c, obs.hr_confidence = some c → c ≤ 0.3) :
    (update cfg target belief obs dt).arousal = (predict cfg target belief dt).arousal ∧
    (update cfg target belief obs dt).arousal_variance =
      (predict cfg target belief dt).arousal_variance ∧
    (predict cfg target belief dt).arousal =
      clamp (belief.arousal +
        (1 - Real.exp (-dt / TAU_AROUSAL)) * (target.arousal - belief.arousal)) 0 1 ∧
    (predict cfg target belief dt).arousal_variance =
      belief.arousal_variance + cfg.q_base * dt := by
  have hstep := arousalStep_eq_of_low_conf cfg (predict cfg target belief dt) obs h
  obtain ⟨vl, hv⟩ := valenceStep_shape (predict cfg target belief dt) obs
  obtain ⟨att, ha⟩ :=
    attentionStep_shape (predict cfg target belief dt)
      { predict cfg target belief dt with valence := vl } obs dt
  refine ⟨?_, ?_, rfl, rfl⟩
  · rw [update_arousal_def, hstep]
    dsimp only
    rw [hv, ha]
    dsimp only
    exact clamp_idem _ 0 1 (by norm_num)
  · rw [update_arousal_variance_def, hstep]
    dsimp only
    rw [hv, ha]

/-! ### Bounds used by the correction-step claims -/

theorem predict_arousal_nonneg (cfg : EstimatorConfig) (target : TargetState)
    (belief : BeliefState) (dt : ℝ) : 0 ≤ (predict cfg target belief dt).arousal :=
  le_clamp _ _ _

theorem predict_arousal_le_one (cfg : EstimatorConfig) (target : TargetState)
    (belief : BeliefState) (dt : ℝ) : (predict cfg target belief dt).arousal ≤ 1 :=
  clamp_le _ _ _ (by norm_num)

theorem predict_arousal_variance_eq (cfg : EstimatorConfig) (target : TargetState)
    (belief : BeliefState) (dt : ℝ) :
    (predict cfg target belief dt).arousal_variance =
      belief.arousal_variance + cfg.q_base * dt := rfl

theorem measuredArousal_nonneg (obs : Observation) (hr : ℝ) :
    0 ≤ measuredArousal obs hr := le_clamp _ _ _

theorem measuredArousal_le_one (obs : Observation) (hr : ℝ) :
    measuredArousal obs hr ≤ 1 := clamp_le _ _ _ (by norm_num)

theorem arousalR_ge (c : ℝ) (hc : c ≤ 1) : 0.15 ≤ arousalR defaultConfig c := by
  unfold arousalR defaultConfig
  dsimp only
  rw [if_pos rfl]
  nlinarith

/-- Under the default configuration, with a sane prior (nonnegative variance,
nonnegative dt) and sensor confidence in `(0.3, 1]`, the Mahalanobis score of the
arousal correction is strictly below the default outlier threshold 3. -/
theorem mahalanobis_lt_three (target : TargetState) (belief : BeliefState)
    (obs : Observation) (dt hr c : ℝ) (hc2 : c ≤ 1) (hdt : 0 ≤ dt)
    (hav : 0 ≤ belief.arousal_variance) :
    Real.sqrt ((measuredArousal obs hr - (predict defaultConfig target belief dt).arousal) *
        (measuredArousal obs hr - (predict defaultConfig target belief dt).arousal) /
      ((predict defaultConfig target belief dt).arousal_variance + arousalR defaultConfig c)) <
      3 := by
  set P := predict defaultConfig target belief dt with hP
  have hPav : 0 ≤ P.arousal_variance := by
    rw [hP, predict_arousal_variance_eq]
    have : (0:ℝ) ≤ defaultConfig.q_base * dt := by
      apply mul_nonneg _ hdt
      norm_num [defaultConfig]
    linarith
  have hR := arousalR_ge c hc2
  have hS : (0:ℝ) < P.arousal_variance + arousalR defaultConfig c := by linarith
  have hP0 := predict_arousal_nonneg defaultConfig target belief dt
  have hP1 := predict_arousal_le_one defaultConfig target belief dt
  rw [← hP] at hP0 hP1
  have hm0 := measuredArousal_nonneg obs hr
  have hm1 := measuredArousal_le_one obs hr
  apply (Real.sqrt_lt' (by norm_num : (0:ℝ) < 3)).mpr
  rw [div_lt_iff₀ hS]
  nlinarith

/-! ## C2 -/

/-- The arousal and arousal-variance fields of `update` are those produced by the
arousal-correction block, the arousal re-clamped by the final record of
`correct`. -/
theorem update_arousal_eq_step (cfg : EstimatorConfig) (target : TargetState)
    (belief : BeliefState) (obs : Observation) (dt : ℝ) :
    (update cfg target belief obs dt).arousal =
      clamp (arousalStep cfg (predict cfg target belief dt) obs).1.arousal 0 1 ∧
    (update cfg target belief obs dt).arousal_variance =
      (arousalStep cfg (predict cfg target belief dt) obs).1.arousal_variance := by
  obtain ⟨a, v, i, m, hstep⟩ := arousalStep_shape cfg (predict cfg target belief dt) obs
  obtain ⟨vl, hv⟩ := valenceStep_shape
    { predict cfg target belief dt with arousal := a, arousal_variance := v } obs
  constructor
  · rw [update_arousal_def, hstep]
    dsimp only
    rw [hv]
    obtain ⟨att, ha⟩ := attentionStep_shape (predict cfg target belief dt) _ obs dt
    rw [ha]
  · rw [update_arousal_variance_def, hstep]
    dsimp only
    rw [hv]
    obtain ⟨att, ha⟩ := attentionStep_shape (predict cfg target belief dt) _ obs dt
    rw [ha]

/-- C2 (amended): in every `update` call in which the arousal correction is
attempted (heart rate and confidence present, confidence above 0.3), with no
range assumption on the sensor value, dt or the prior variance: if the
Mahalanobis score is at least the default outlier threshold 3.0 (the code
accepts only score < threshold, so exact equality also rejects), the arousal
estimate stays at the predicted value and the arousal variance is increased by
0.01; if the score is below the threshold, the Kalman correction and the
variance shrink `(1 - K) * predicted_variance` are applied, the stored arousal
being `clamp(predicted + K * innovation, 0, 1)` (every dimension is clamped
after the correct step), with `K = predicted_variance / (predicted_variance + R)`. -/
theorem update_outlier_gate (target : TargetState) (belief : BeliefState)
    (obs : Observation) (dt hr c R K innov mah : ℝ)
    (hhr : obs.heart_rate = some hr) (hc : obs.hr_confidence = some c)
    (hc1 : 0.3 < c)
    (hR : R = arousalR defaultConfig c)
    (hK : K = (predict defaultConfig target belief dt).arousal_variance /
      ((predict defaultConfig target belief dt).arousal_variance + R))
    (hinnov : innov =
      measuredArousal obs hr - (predict defaultConfig target belief dt).arousal)
    (hmah : mah = Real.sqrt (innov * innov /
      ((predict defaultConfig target belief dt).arousal_variance + R))) :
    (defaultConfig.outlier_threshold ≤ mah →
      (update defaultConfig target belief obs dt).arousal =
        (predict defaultConfig target belief dt).arousal ∧
      (update defaultConfig target belief obs dt).arousal_variance =
        (predict defaultConfig target belief dt).arousal_variance + 0.01) ∧
    (mah < defaultConfig.outlier_threshold →
      (update defaultConfig target belief obs dt).arousal =
        clamp ((predict defaultConfig target belief dt).arousal + K * innov) 0 1 ∧
      (update defaultConfig target belief obs dt).arousal_variance =
        (1 - K) * (predict defaultConfig target belief dt).arousal_variance) := by
  subst hR hK hinnov hmah
  set P := predict defaultConfig target belief dt with hP
  constructor
  · intro hge
    have hstep : arousalStep defaultConfig P obs =
        ({ P with arousal_variance := P.arousal_variance + 0.01 }, 0,
          Real.sqrt ((measuredArousal obs hr - P.arousal) *
            (measuredArousal obs hr - P.arousal) /
            (P.arousal_variance + arousalR defaultConfig c))) := by
      unfold arousalStep
      rw [hhr, hc]
      dsimp only
      rw [if_pos hc1, if_neg (not_lt.mpr hge)]
    constructor
    · rw [(update_arousal_eq_step defaultConfig target belief obs dt).1, ← hP, hstep]
      dsimp only
      exact clamp_idem _ 0 1 (by norm_num)
    · rw [(update_arousal_eq_step defaultConfig target belief obs dt).2, ← hP, hstep]
  · intro hlt
    have hstep : arousalStep defaultConfig P obs =
        ({ P with
            arousal := P.arousal +
              P.arousal_variance / (P.arousal_variance + arousalR defaultConfig c) *
                (measuredArousal obs hr - P.arousal)
            arousal_variance :=
              (1 - P.arousal_variance / (P.arousal_variance + arousalR defaultConfig c)) *
                P.arousal_variance },
          measuredArousal obs hr - P.arousal,
          Real.sqrt ((measuredArousal obs hr - P.arousal) *
            (measuredArousal obs hr - P.arousal) /
            (P.arousal_variance + arousalR defaultConfig c))) := by
      unfold arousalStep
      rw [hhr, hc]
      dsimp only
      rw [if_pos hc1, if_pos hlt]
    constructor
    · rw [(update_arousal_eq_step defaultConfig target belief obs dt).1, ← hP, hstep]
    · rw [(update_arousal_eq_step defaultConfig target belief obs dt).2, ← hP, hstep]

/-- A concrete observation carrying a confident heart-rate reading. -/
def obsHR : Observation :=
  { timestamp := 0
    delta_time := 0
    user_interaction := none
    visibilty_state := VisibilityState.visible
    heart_rate := some 85
    hr_confidence := some 1
    respiration_rate := none
    stress_index := none
    facial_valence := none }

def P0 : BeliefState := predict defaultConfig targetDefault initialBelief 0

def K0 : ℝ := P0.arousal_variance / (P0.arousal_variance + arousalR defaultConfig 1)

def innov0 : ℝ := measuredArousal obsHR 85 - P0.arousal

def mah0 : ℝ :=
  Real.sqrt (innov0 * innov0 / (P0.arousal_variance + arousalR defaultConfig 1))

/-- Without a stress index, the measured arousal is just the normalized heart
rate, clamped. -/
theorem measuredArousal_no_stress (obs : Observation) (hr : ℝ)
    (h : obs.stress_index = none) :
    measuredArousal obs hr = clamp ((hr - 50) / 70) 0 1 := by
  unfold measuredArousal
  rw [h]

theorem predict_initial_arousal :
    (predict defaultConfig targetDefault initialBelief 0).arousal = 0.5 := by
  show clamp ((0.5:ℝ) + (1 - Real.exp (-(0:ℝ) / TAU_AROUSAL)) * ((0.5:ℝ) - 0.5)) 0 1 = 0.5
  rw [show (0.5:ℝ) - 0.5 = 0 by norm_num, mul_zero, add_zero]
  exact clamp_of_mem (by norm_num) (by norm_num)

theorem predict_initial_av :
    (predict defaultConfig targetDefault initialBelief 0).arousal_variance = 0.2 := by
  rw [predict_arousal_variance_eq]
  show (0.2:ℝ) + defaultConfig.q_base * 0 = 0.2
  rw [mul_zero, add_zero]

/-- A prior belief whose arousal variance has shrunk to zero. -/
def bEq : BeliefState := { initialBelief with arousal_variance := 0 }

/-- An observation whose heart rate measures arousal 0 and whose confidence is
29/18, making the Mahalanobis score exactly 3. -/
def obsEq : Observation := { obsHR with heart_rate := some 50, hr_confidence := some (29/18) }

def PEq : BeliefState := predict defaultConfig targetDefault bEq 0

def KEq : ℝ := PEq.arousal_variance / (PEq.arousal_variance + arousalR defaultConfig (29/18))

def innovEq : ℝ := measuredArousal obsEq 50 - PEq.arousal

def mahEq : ℝ :=
  Real.sqrt (innovEq * innovEq / (PEq.arousal_variance + arousalR defaultConfig (29/18)))

theorem predict_bEq_arousal :
    (predict defaultConfig targetDefault bEq 0).arousal = 0.5 := by
  show clamp ((0.5:ℝ) + (1 - Real.exp (-(0:ℝ) / TAU_AROUSAL)) * ((0.5:ℝ) - 0.5)) 0 1 = 0.5
  rw [show (0.5:ℝ) - 0.5 = 0 by norm_num, mul_zero, add_zero]
  exact clamp_of_mem (by norm_num) (by norm_num)

theorem predict_bEq_av :
    (predict defaultConfig targetDefault bEq 0).arousal_variance = 0 := by
  rw [predict_arousal_variance_eq]
  show (0:ℝ) + defaultConfig.q_base * 0 = 0
  rw [mul_zero, add_zero]

theorem arousalR_29_18 : arousalR defaultConfig (29/18) = 1/36 := by
  unfold arousalR defaultConfig
  dsimp only
  rw [if_pos rfl]
  norm_num

theorem measuredArousal_obsEq : measuredArousal obsEq 50 = 0 := by
  rw [measuredArousal_no_stress obsEq 50 rfl, show ((50:ℝ) - 50) / 70 = 0 by norm_num]
  exact clamp_of_mem le_rfl (by norm_num)

theorem innovEq_eq : innovEq = -0.5 := by
  unfold innovEq PEq
  rw [measuredArousal_obsEq, predict_bEq_arousal]
  norm_num

theorem mahEq_eq : mahEq = 3 := by
  unfold mahEq PEq
  rw [innovEq_eq, predict_bEq_av, arousalR_29_18]
  rw [show (-0.5:ℝ) * (-0.5) / (0 + 1/36) = 9 by norm_num]
  rw [show (9:ℝ) = 3 ^ 2 by norm_num, Real.sqrt_sq (by norm_num)]

/-- C2 (counterexample): an `update` call with the arousal correction attempted
(hr_confidence = 29/18 > 0.3) in which the Mahalanobis score equals the default
threshold exactly, so it does NOT exceed it, yet the Kalman variance shrink
`(1 - K) * predicted_variance` is not what the returned state holds: the code
accepts only score < threshold, so equality rejects and adds 0.01 instead. -/
theorem update_outlier_gate_claim_counterexample :
    obsEq.heart_rate = some 50 ∧ obsEq.hr_confidence = some (29/18) ∧
    (0.3:ℝ) < 29/18 ∧
    ¬ defaultConfig.outlier_threshold < mahEq ∧
    (update defaultConfig targetDefault bEq obsEq 0).arousal_variance ≠
      (1 - KEq) * PEq.arousal_variance := by
  refine ⟨rfl, rfl, by norm_num, ?_, ?_⟩
  · rw [mahEq_eq]
    norm_num [defaultConfig]
  · have hnot : ¬ Real.sqrt ((measuredArousal obsEq 50 -
        (predict defaultConfig targetDefault bEq 0).arousal) *
        (measuredArousal obsEq 50 - (predict defaultConfig targetDefault bEq 0).arousal) /
        ((predict defaultConfig targetDefault bEq 0).arousal_variance +
          arousalR defaultConfig (29/18))) < defaultConfig.outlier_threshold := by
      have h3 : Real.sqrt ((measuredArousal obsEq 50 -
          (predict defaultConfig targetDefault bEq 0).arousal) *
          (measuredArousal obsEq 50 - (predict defaultConfig targetDefault bEq 0).arousal) /
          ((predict defaultConfig targetDefault bEq 0).arousal_variance +
            arousalR defaultConfig (29/18))) = 3 := mahEq_eq
      rw [h3]
      norm_num [defaultConfig]
    have hstep : arousalStep defaultConfig (predict defaultConfig targetDefault bEq 0)
        obsEq =
        ({ predict defaultConfig targetDefault bEq 0 with
            arousal_variance :=
              (predict defaultConfig targetDefault bEq 0).arousal_variance + 0.01 }, 0,
          Real.sqrt ((measuredArousal obsEq 50 -
            (predict defaultConfig targetDefault bEq 0).arousal) *
            (measuredArousal obsEq 50 - (predict defaultConfig targetDefault bEq 0).arousal) /
            ((predict defaultConfig targetDefault bEq 0).arousal_variance +
              arousalR defaultConfig (29/18)))) := by
      unfold arousalStep
      rw [show obsEq.heart_rate = some 50 from rfl,
        show obsEq.hr_confidence = some (29/18) from rfl]
      dsimp only
      rw [if_pos (by norm_num : (0.3:ℝ) < 29/18), if_neg hnot]
    rw [(update_arousal_eq_step defaultConfig targetDefault bEq obsEq 0).2, hstep]
    dsimp only
    have hKEq : KEq = 0 := by
      unfold KEq PEq
      rw [predict_bEq_av, arousalR_29_18]
      norm_num
    have hPEqav : PEq.arousal_variance = 0 := predict_bEq_av
    rw [predict_bEq_av, hKEq, hPEqav]
    norm_num

/-- An observation whose measured arousal is 0 and whose out-of-range confidence
1.7 shrinks the measurement noise to 0.01, driving the Mahalanobis score to 5. -/
def obsREJ : Observation := { obsHR with heart_rate := some 50, hr_confidence := some 1.7 }

def KREJ : ℝ := PEq.arousal_variance / (PEq.arousal_variance + arousalR defaultConfig 1.7)

def innovREJ : ℝ := measuredArousal obsREJ 50 - PEq.arousal

def mahREJ : ℝ :=
  Real.sqrt (innovREJ * innovREJ / (PEq.arousal_variance + arousalR defaultConfig 1.7))

theorem arousalR_17 : arousalR defaultConfig 1.7 = 0.01 := by
  unfold arousalR defaultConfig
  dsimp only
  rw [if_pos rfl]
  norm_num

theorem measuredArousal_obsREJ : measuredArousal obsREJ 50 = 0 := by
  rw [measuredArousal_no_stress obsREJ 50 rfl, show ((50:ℝ) - 50) / 70 = 0 by norm_num]
  exact clamp_of_mem le_rfl (by norm_num)

theorem mahREJ_eq : mahREJ = 5 := by
  unfold mahREJ innovREJ PEq
  rw [measuredArousal_obsREJ, predict_bEq_arousal, predict_bEq_av, arousalR_17]
  rw [show ((0:ℝ) - 0.5) * ((0:ℝ) - 0.5) / (0 + 0.01) = 25 by norm_num]
  rw [show (25:ℝ) = 5 ^ 2 by norm_num, Real.sqrt_sq (by norm_num)]

theorem measuredArousal_obsHR : measuredArousal obsHR 85 = 0.5 := by
  rw [measuredArousal_no_stress obsHR 85 rfl, show ((85:ℝ) - 50) / 70 = 0.5 by norm_num]
  exact clamp_of_mem (by norm_num) (by norm_num)

theorem mah0_eq : mah0 = 0 := by
  unfold mah0 innov0 P0
  rw [measuredArousal_obsHR, predict_initial_arousal]
  rw [show (0.5:ℝ) - 0.5 = 0 by norm_num, zero_mul, zero_div, Real.sqrt_zero]

theorem update_outlier_gate_witness :
    (obsREJ.heart_rate = some 50 ∧ obsREJ.hr_confidence = some 1.7 ∧ (0.3:ℝ) < 1.7 ∧
      defaultConfig.outlier_threshold ≤ mahREJ ∧
      (update defaultConfig targetDefault bEq obsREJ 0).arousal = PEq.arousal ∧
      (update defaultConfig targetDefault bEq obsREJ 0).arousal_variance =
        PEq.arousal_variance + 0.01) ∧
    (obsHR.heart_rate = some 85 ∧ obsHR.hr_confidence = some 1 ∧ (0.3:ℝ) < 1 ∧
      mah0 < defaultConfig.outlier_threshold ∧
      (update defaultConfig targetDefault initialBelief obsHR 0).arousal =
        clamp (P0.arousal + K0 * innov0) 0 1 ∧
      (update defaultConfig targetDefault initialBelief obsHR 0).arousal_variance =
        (1 - K0) * P0.arousal_variance) := by
  have hge : defaultConfig.outlier_threshold ≤ mahREJ := by
    rw [mahREJ_eq]
    norm_num [defaultConfig]
  have hlt : mah0 < defaultConfig.outlier_threshold := by
    rw [mah0_eq]
    norm_num [defaultConfig]
  exact ⟨⟨rfl, rfl, by norm_num, hge,
      (update_outlier_gate targetDefault bEq obsREJ 0 50 1.7 (arousalR defaultConfig 1.7)
        KREJ innovREJ mahREJ rfl rfl (by norm_num) rfl rfl rfl rfl).1 hge⟩,
    rfl, rfl, by norm_num, hlt,
      (update_outlier_gate targetDefault initialBelief obsHR 0 85 1
        (arousalR defaultConfig 1) K0 innov0 mah0 rfl rfl (by norm_num)
        rfl rfl rfl rfl).2 hlt⟩

/-! ## C9 -/

/-- The arousal variance never goes negative through the correction block. -/
theorem arousalStep_av_nonneg (predicted : BeliefState) (obs : Observation)
    (hpav : 0 ≤ predicted.arousal_variance)
    (hconf : ∀ c, obs.hr_confidence = some c → c ≤ 1) :
    0 ≤ (arousalStep defaultConfig predicted obs).1.arousal_variance := by
  unfold arousalStep
  rcases hhr : obs.heart_rate with _ | hr
  · exact hpav
  rcases hc : obs.hr_confidence with _ | c
  · exact hpav
  dsimp only
  split
  · have hc1 := hconf c hc
    have hR := arousalR_ge c hc1
    have hS : (0:ℝ) < predicted.arousal_variance + arousalR defaultConfig c := by linarith
    split
    · dsimp only
      have hK1 : predicted.arousal_variance /
          (predicted.arousal_variance + arousalR defaultConfig c) ≤ 1 := by
        rw [div_le_one hS]
        linarith
      exact mul_nonneg (by linarith) hpav
    · dsimp only
      linarith
  · exact hpav

theorem update_arousal_variance_nonneg (target : TargetState) (belief : BeliefState)
    (obs : Observation) (dt : ℝ) (hdt : 0 ≤ dt) (hav : 0 ≤ belief.arousal_variance)
    (hconf : ∀ c, obs.hr_confidence = some c → c ≤ 1) :
    0 ≤ (update defaultConfig target belief obs dt).arousal_variance := by
  have hPav : 0 ≤ (predict defaultConfig target belief dt).arousal_variance := by
    rw [predict_arousal_variance_eq]
    have : (0:ℝ) ≤ defaultConfig.q_base * dt := by
      apply mul_nonneg _ hdt
      norm_num [defaultConfig]
    linarith
  rw [update_arousal_variance_def]
  obtain ⟨vl, hv⟩ :=
    valenceStep_shape (arousalStep defaultConfig (predict defaultConfig target belief dt) obs).1
      obs
  rw [hv]
  obtain ⟨att, ha⟩ := attentionStep_shape (predict defaultConfig target belief dt) _ obs dt
  rw [ha]
  exact arousalStep_av_nonneg (predict defaultConfig target belief dt) obs hPav hconf

theorem update_attention_variance_eq (cfg : EstimatorConfig) (target : TargetState)
    (belief : BeliefState) (obs : Observation) (dt : ℝ) :
    (update cfg target belief obs dt).attention_variance =
      belief.attention_variance + cfg.q_base * dt := by
  rw [update_attention_variance_def]
  obtain ⟨a, v, i, m, hstep⟩ := arousalStep_shape cfg (predict cfg target belief dt) obs
  rw [hstep]
  obtain ⟨vl, hv⟩ :=
    valenceStep_shape { predict cfg target belief dt with arousal := a, arousal_variance := v }
      obs
  rw [hv]
  obtain ⟨att, ha⟩ := attentionStep_shape (predict cfg target belief dt) _ obs dt
  rw [ha]
  rfl

theorem update_rhythm_variance_eq (cfg : EstimatorConfig) (target : TargetState)
    (belief : BeliefState) (obs : Observation) (dt : ℝ) :
    (update cfg target belief obs dt).rhythm_variance =
      belief.rhythm_variance + cfg.q_base * dt := by
  rw [update_rhythm_variance_def]
  obtain ⟨a, v, i, m, hstep⟩ := arousalStep_shape cfg (predict cfg target belief dt) obs
  rw [hstep]
  obtain ⟨vl, hv⟩ :=
    valenceStep_shape { predict cfg target belief dt with arousal := a, arousal_variance := v }
      obs
  rw [hv]
  obtain ⟨att, ha⟩ := attentionStep_shape (predict cfg target belief dt) _ obs dt
  rw [ha]
  rfl

/-- C9: under the default configuration, `update` keeps the three variances
nonnegative, and whenever an observation carries `hr_confidence` (in its valid
range `[0,1]`) the innovation covariance `S = predicted_variance + R` used for
the Kalman gain is strictly positive with `R ≥ r_base = 0.15`, so the gain
`K = predicted_variance / S` lies in `[0,1)` and the division is never by zero. -/
theorem update_variance_gain_safety (target : TargetState) (belief : BeliefState)
    (obs : Observation) (dt : ℝ) (hdt : 0 ≤ dt)
    (hav : 0 ≤ belief.arousal_variance) (hatv : 0 ≤ belief.attention_variance)
    (hrhv : 0 ≤ belief.rhythm_variance)
    (hconf : ∀ c, obs.hr_confidence = some c → 0 ≤ c ∧ c ≤ 1) :
    0 ≤ (update defaultConfig target belief obs dt).arousal_variance ∧
    0 ≤ (update defaultConfig target belief obs dt).attention_variance ∧
    0 ≤ (update defaultConfig target belief obs dt).rhythm_variance ∧
    ∀ c, obs.hr_confidence = some c →
      (0.15:ℝ) ≤ arousalR defaultConfig c ∧
      0 < (predict defaultConfig target belief dt).arousal_variance +
        arousalR defaultConfig c ∧
      0 ≤ (predict defaultConfig target belief dt).arousal_variance /
        ((predict defaultConfig target belief dt).arousal_variance +
          arousalR defaultConfig c) ∧
      (predict defaultConfig target belief dt).arousal_variance /
        ((predict defaultConfig target belief dt).arousal_variance +
          arousalR defaultConfig c) < 1 := by
  have hQ : (0:ℝ) ≤ defaultConfig.q_base * dt := by
    apply mul_nonneg _ hdt
    norm_num [defaultConfig]
  have hPav : 0 ≤ (predict defaultConfig target belief dt).arousal_variance := by
    rw [predict_arousal_variance_eq]
    linarith
  refine ⟨update_arousal_variance_nonneg target belief obs dt hdt hav
      (fun c hc => (hconf c hc).2), ?_, ?_, ?_⟩
  · rw [update_attention_variance_eq]
    linarith
  · rw [update_rhythm_variance_eq]
    linarith
  · intro c hc
    have hc1 := (hconf c hc).2
    have hR := arousalR_ge c hc1
    have hS : (0:ℝ) < (predict defaultConfig target belief dt).arousal_variance +
        arousalR defaultConfig c := by linarith
    refine ⟨hR, hS, div_nonneg hPav hS.le, ?_⟩
    rw [div_lt_one hS]
    linarith

theorem update_variance_gain_safety_witness :
    (0:ℝ) ≤ 0 ∧ 0 ≤ initialBelief.arousal_variance ∧
    0 ≤ initialBelief.attention_variance ∧ 0 ≤ initialBelief.rhythm_variance ∧
    (0 ≤ (update defaultConfig targetDefault initialBelief obsHR 0).arousal_variance ∧
      0 ≤ (update defaultConfig targetDefault initialBelief obsHR 0).attention_variance ∧
      0 ≤ (update defaultConfig targetDefault initialBelief obsHR 0).rhythm_variance ∧
      ∀ c, obsHR.hr_confidence = some c →
        (0.15:ℝ) ≤ arousalR defaultConfig c ∧
        0 < (predict defaultConfig targetDefault initialBelief 0).arousal_variance +
          arousalR defaultConfig c ∧
        0 ≤ (predict defaultConfig targetDefault initialBelief 0).arousal_variance /
          ((predict defaultConfig targetDefault initialBelief 0).arousal_variance +
            arousalR defaultConfig c) ∧
        (predict defaultConfig targetDefault initialBelief 0).arousal_variance /
          ((predict defaultConfig targetDefault initialBelief 0).arousal_variance +
            arousalR defaultConfig c) < 1) :=
  ⟨le_rfl, by norm_num [initialBelief], by norm_num [initialBelief],
    by norm_num [initialBelief],
    update_variance_gain_safety targetDefault initialBelief obsHR 0 le_rfl
      (by norm_num [initialBelief]) (by norm_num [initialBelief])
      (by norm_num [initialBelief])
      (fun c hc => by
        simp only [obsHR, Option.some.injEq] at hc
        subst hc
        norm_num)⟩

/-- An observation mirroring obsHR but with an out-of-range confidence of 2. -/
def obsC9 : Observation := { obsHR with hr_confidence := some 2 }

theorem arousalR_2 : arousalR defaultConfig 2 = -0.05 := by
  unfold arousalR defaultConfig
  dsimp only
  rw [if_pos rfl]
  norm_num

theorem measuredArousal_obsC9 : measuredArousal obsC9 85 = 0.5 := by
  rw [measuredArousal_no_stress obsC9 85 rfl, show ((85:ℝ) - 50) / 70 = 0.5 by norm_num]
  exact clamp_of_mem (by norm_num) (by norm_num)

/-- C9 (counterexample): at hr_confidence = 2 (outside the sensor range [0,1])
the adaptive penalty makes R = -0.05 < r_base, the Kalman gain is 4/3 > 1, and a
single update from the initial belief (dt = 0, nonnegative prior variances)
drives the arousal variance negative: the claim fails as stated over every
observation. -/
theorem update_variance_claim_counterexample :
    (0:ℝ) ≤ 0 ∧ 0 ≤ initialBelief.arousal_variance ∧
    arousalR defaultConfig 2 < defaultConfig.r_base ∧
    1 < (predict defaultConfig targetDefault initialBelief 0).arousal_variance /
      ((predict defaultConfig targetDefault initialBelief 0).arousal_variance +
        arousalR defaultConfig 2) ∧
    (update defaultConfig targetDefault initialBelief obsC9 0).arousal_variance < 0 := by
  refine ⟨le_rfl, by norm_num [initialBelief], ?_, ?_, ?_⟩
  · rw [arousalR_2]
    norm_num [defaultConfig]
  · rw [predict_initial_av, arousalR_2]
    norm_num
  · have hltC9 : Real.sqrt ((measuredArousal obsC9 85 -
        (predict defaultConfig targetDefault initialBelief 0).arousal) *
        (measuredArousal obsC9 85 -
          (predict defaultConfig targetDefault initialBelief 0).arousal) /
        ((predict defaultConfig targetDefault initialBelief 0).arousal_variance +
          arousalR defaultConfig 2)) < defaultConfig.outlier_threshold := by
      rw [measuredArousal_obsC9, predict_initial_arousal, predict_initial_av, arousalR_2]
      rw [show ((0.5:ℝ) - 0.5) * ((0.5:ℝ) - 0.5) / (0.2 + -0.05) = 0 by norm_num,
        Real.sqrt_zero]
      norm_num [defaultConfig]
    have hstep : arousalStep defaultConfig
        (predict defaultConfig targetDefault initialBelief 0) obsC9 =
        ({ predict defaultConfig targetDefault initialBelief 0 with
            arousal := (predict defaultConfig targetDefault initialBelief 0).arousal +
              (predict defaultConfig targetDefault initialBelief 0).arousal_variance /
                ((predict defaultConfig targetDefault initialBelief 0).arousal_variance +
                  arousalR defaultConfig 2) *
                (measuredArousal obsC9 85 -
                  (predict defaultConfig targetDefault initialBelief 0).arousal)
            arousal_variance :=
              (1 - (predict defaultConfig targetDefault initialBelief 0).arousal_variance /
                ((predict defaultConfig targetDefault initialBelief 0).arousal_variance +
                  arousalR defaultConfig 2)) *
                (predict defaultConfig targetDefault initialBelief 0).arousal_variance },
          measuredArousal obsC9 85 -
            (predict defaultConfig targetDefault initialBelief 0).arousal,
          Real.sqrt ((measuredArousal obsC9 85 -
            (predict defaultConfig targetDefault initialBelief 0).arousal) *
            (measuredArousal obsC9 85 -
              (predict defaultConfig targetDefault initialBelief 0).arousal) /
            ((predict defaultConfig targetDefault initialBelief 0).arousal_variance +
              arousalR defaultConfig 2))) := by
      unfold arousalStep
      rw [show obsC9.heart_rate = some 85 from rfl,
        show obsC9.hr_confidence = some 2 from rfl]
      dsimp only
      rw [if_pos (by norm_num : (0.3:ℝ) < 2), if_pos hltC9]
    rw [(update_arousal_eq_step defaultConfig targetDefault initialBelief obsC9 0).2, hstep]
    dsimp only
    rw [predict_initial_av, arousalR_2]
    norm_num

/-! ## C3 -/

/-- When the arousal block is skipped, the returned arousal variance is the
predicted one. -/
theorem update_arousal_variance_eq_of_skip (cfg : EstimatorConfig) (target : TargetState)
    (belief : BeliefState) (obs : Observation) (dt : ℝ)
    (h : ∀ c, obs.hr_confidence = some c → c ≤ 0.3) :
    (update cfg target belief obs dt).arousal_variance =
      belief.arousal_variance + cfg.q_base * dt := by
  rw [update_arousal_variance_def, arousalStep_eq_of_low_conf _ _ _ h]
  obtain ⟨vl, hv⟩ := valenceStep_shape (predict cfg target belief dt) obs
  rw [hv]
  obtain ⟨att, ha⟩ := attentionStep_shape (predict cfg target belief dt) _ obs dt
  rw [ha]
  rfl

/-- The confidence formula exactly as the specification sentence reads: certainty
is one minus HALF the average of the two variances, capped at 1. -/
def specConfidenceC3 (state : BeliefState) (obs : Observation) : ℝ :=
  Real.sqrt ((1 - min 1 (((state.arousal_variance + state.attention_variance) / 2) / 2)) *
    obs.hr_confidence.getD 0.5)

/-- A concrete observation carrying a (low) hr_confidence and nothing else. -/
def obsC3 : Observation :=
  { timestamp := 0
    delta_time := 0
    user_interaction := none
    visibilty_state := VisibilityState.visible
    heart_rate := none
    hr_confidence := some 0.1
    respiration_rate := none
    stress_index := none
    facial_valence := none }

/-- C3 (counterexample): at a concrete `update` call carrying `hr_confidence`,
the returned confidence differs from the claimed
`sqrt((1 - min(1, avg(arousal_variance, attention_variance)/2)) * hr_confidence)`
(the code divides the variance sum by 2, not by 4). -/
theorem update_confidence_claim_counterexample :
    (update defaultConfig targetDefault initialBelief obsC3 0).confidence ≠
      specConfidenceC3 (update defaultConfig targetDefault initialBelief obsC3 0) obsC3 := by
  have hskip : ∀ c, obsC3.hr_confidence = some c → c ≤ 0.3 := by
    intro c hc
    simp only [obsC3, Option.some.injEq] at hc
    rw [← hc]
    norm_num
  have hav : (update defaultConfig targetDefault initialBelief obsC3 0).arousal_variance =
      0.2 := by
    rw [update_arousal_variance_eq_of_skip defaultConfig targetDefault initialBelief obsC3 0
      hskip]
    norm_num [initialBelief, defaultConfig]
  have hatv : (update defaultConfig targetDefault initialBelief obsC3 0).attention_variance =
      0.2 := by
    rw [update_attention_variance_eq]
    norm_num [initialBelief, defaultConfig]
  have hgetD : obsC3.hr_confidence.getD 0.5 = 0.1 := rfl
  have hcorr_av :
      (correct defaultConfig (predict defaultConfig targetDefault initialBelief 0) obsC3
        0).arousal_variance = 0.2 := hav
  have hcorr_atv :
      (correct defaultConfig (predict defaultConfig targetDefault initialBelief 0) obsC3
        0).attention_variance = 0.2 := hatv
  have hcode : (update defaultConfig targetDefault initialBelief obsC3 0).confidence =
      Real.sqrt 0.08 := by
    rw [update_confidence_def]
    unfold computeConfidence
    dsimp only
    rw [hcorr_av, hcorr_atv, hgetD]
    rw [show ((0.2:ℝ) + 0.2) / 2 = 0.2 by norm_num, min_eq_right (by norm_num : (0.2:ℝ) ≤ 1)]
    rw [show ((1:ℝ) - 0.2) * 0.1 = 0.08 by norm_num]
    exact clamp_of_mem (Real.sqrt_nonneg _) (Real.sqrt_le_one.mpr (by norm_num))
  have hspec : specConfidenceC3 (update defaultConfig targetDefault initialBelief obsC3 0)
      obsC3 = Real.sqrt 0.09 := by
    unfold specConfidenceC3
    rw [hav, hatv, hgetD]
    rw [show (((0.2:ℝ) + 0.2) / 2) / 2 = 0.1 by norm_num,
      min_eq_right (by norm_num : (0.1:ℝ) ≤ 1)]
    rw [show ((1:ℝ) - 0.1) * 0.1 = 0.09 by norm_num]
  rw [hcode, hspec]
  exact ne_of_lt (Real.sqrt_lt_sqrt (by norm_num) (by norm_num))

/-- C3 (amended): for every `update` call whose observation carries
`hr_confidence` in `[0,1]`, with nonnegative prior variances and `dt ≥ 0`, the
returned confidence is `sqrt(certainty * hr_confidence)` where certainty is one
minus the AVERAGE of the arousal and attention variances capped at 1, i.e.
`1 - min(1, (arousal_variance + attention_variance)/2)`. -/
theorem update_confidence_eq (target : TargetState) (belief : BeliefState)
    (obs : Observation) (dt c : ℝ) (hc : obs.hr_confidence = some c)
    (hc0 : 0 ≤ c) (hc1 : c ≤ 1) (hdt : 0 ≤ dt)
    (hav : 0 ≤ belief.arousal_variance) (hatv : 0 ≤ belief.attention_variance) :
    (update defaultConfig target belief obs dt).confidence =
      Real.sqrt ((1 - min 1
        (((update defaultConfig target belief obs dt).arousal_variance +
          (update defaultConfig target belief obs dt).attention_variance) / 2)) * c) := by
  have hav' : 0 ≤ (update defaultConfig target belief obs dt).arousal_variance :=
    update_arousal_variance_nonneg target belief obs dt hdt hav
      (fun c' hc' => by
        rw [hc] at hc'
        injection hc' with h
        rw [← h]
        exact hc1)
  have hatv' : 0 ≤ (update defaultConfig target belief obs dt).attention_variance := by
    rw [update_attention_variance_eq]
    have : (0:ℝ) ≤ defaultConfig.q_base * dt := by
      apply mul_nonneg _ hdt
      norm_num [defaultConfig]
    linarith
  have hcorr_av :
      (correct defaultConfig (predict defaultConfig target belief dt) obs
        dt).arousal_variance =
      (update defaultConfig target belief obs dt).arousal_variance := rfl
  have hcorr_atv :
      (correct defaultConfig (predict defaultConfig target belief dt) obs
        dt).attention_variance =
      (update defaultConfig target belief obs dt).attention_variance := rfl
  rw [update_confidence_def]
  unfold computeConfidence
  dsimp only
  rw [hcorr_av, hcorr_atv, hc]
  have hgetD : (Option.some c).getD (0.5:ℝ) = c := rfl
  rw [hgetD]
  set z := ((update defaultConfig target belief obs dt).arousal_variance +
    (update defaultConfig target belief obs dt).attention_variance) / 2 with hz
  have hz0 : 0 ≤ z := by
    rw [hz]
    linarith
  have hmin0 : 0 ≤ min 1 z := le_min (by norm_num) hz0
  have hmin1 : min 1 z ≤ 1 := min_le_left _ _
  apply clamp_of_mem (Real.sqrt_nonneg _)
  apply Real.sqrt_le_one.mpr
  exact mul_le_one₀ (by linarith) hc0 hc1

theorem update_confidence_eq_witness :
    obsC3.hr_confidence = some 0.1 ∧ (0:ℝ) ≤ 0.1 ∧ (0.1:ℝ) ≤ 1 ∧ (0:ℝ) ≤ 0 ∧
    0 ≤ initialBelief.arousal_variance ∧ 0 ≤ initialBelief.attention_variance ∧
    (update defaultConfig targetDefault initialBelief obsC3 0).confidence =
      Real.sqrt ((1 - min 1
        (((update defaultConfig targetDefault initialBelief obsC3 0).arousal_variance +
          (update defaultConfig targetDefault initialBelief obsC3 0).attention_variance) /
            2)) * 0.1) :=
  ⟨rfl, by norm_num, by norm_num, le_rfl, by norm_num [initialBelief],
    by norm_num [initialBelief],
    update_confidence_eq targetDefault initialBelief obsC3 0 0.1 rfl (by norm_num)
      (by norm_num) le_rfl (by norm_num [initialBelief]) (by norm_num [initialBelief])⟩

theorem update_arousal_of_low_conf_witness :
    (∀ c, obsC3.hr_confidence = some c → c ≤ 0.3) ∧
    ((update defaultConfig targetDefault initialBelief obsC3 0).arousal =
        (predict defaultConfig targetDefault initialBelief 0).arousal ∧
      (update defaultConfig targetDefault initialBelief obsC3 0).arousal_variance =
        (predict defaultConfig targetDefault initialBelief 0).arousal_variance ∧
      (predict defaultConfig targetDefault initialBelief 0).arousal =
        clamp (initialBelief.arousal + (1 - Real.exp (-0 / TAU_AROUSAL)) *
          (targetDefault.arousal - initialBelief.arousal)) 0 1 ∧
      (predict defaultConfig targetDefault initialBelief 0).arousal_variance =
        initialBelief.arousal_variance + defaultConfig.q_base * 0) := by
  have h : ∀ c, obsC3.hr_confidence = some c → c ≤ 0.3 := by
    intro c hc
    simp only [obsC3, Option.some.injEq] at hc
    rw [← hc]
    norm_num
  exact ⟨h, update_arousal_of_low_conf defaultConfig targetDefault initialBelief obsC3 0 h⟩

/-! ## rPPG worker (fft.worker): math utils and the onmessage pipeline -/

structure RGBSample where
  r : ℝ
  g : ℝ
  b : ℝ
  timestamp : ℝ

def mean (data : List ℝ) : ℝ := data.sum / data.length

def stdDev (data : List ℝ) : ℝ :=
  Real.sqrt ((data.map (fun v => (v - mean data) ^ 2)).sum / data.length)

def hammingWindow (n : ℕ) : List ℝ :=
  (List.range n).map (fun i => 0.54 - 0.46 * Real.cos ((2 * Real.pi * i) / ((n : ℝ) - 1)))

/-- JS `x || d` for the numeric falsy case arising in the worker (zero mean). -/
def jsOr (x d : ℝ) : ℝ := if x = 0 then d else x

def posWindowSize (fs : ℝ) : ℕ := (⌊(1.6 : ℝ) * fs⌋).toNat

/-- The local window `rgb.slice(max(0, i - w), min(l, i + w))`. -/
def posSegment (rgb : List RGBSample) (w i : ℕ) : List RGBSample :=
  (rgb.drop (i - w)).take (min rgb.length (i + w) - (i - w))

/-- The POS (Plane-Orthogonal-to-Skin) projection, sample by sample. -/
def computePOS (rgb : List RGBSample) (fs : ℝ) : List ℝ :=
  let l := rgb.length
  let w := posWindowSize fs
  (List.range l).map (fun i =>
    let segment := posSegment rgb w i
    let meanR := jsOr (mean (segment.map RGBSample.r)) 1
    let meanG := jsOr (mean (segment.map RGBSample.g)) 1
    let meanB := jsOr (mean (segment.map RGBSample.b)) 1
    let ci := rgb.getD i ⟨0, 0, 0, 0⟩
    let cn_r := ci.r / meanR
    let cn_g := ci.g / meanG
    let cn_b := ci.b / meanB
    let s1 := cn_g - cn_b
    let s2 := cn_g + cn_b - 2 * cn_r
    let seg_s1 := segment.map (fun c => c.g / meanG - c.b / meanB)
    let seg_s2 := segment.map (fun c => c.g / meanG + c.b / meanB - 2 * (c.r / meanR))
    let std1 := stdDev seg_s1
    let std2 := stdDev seg_s2
    let alpha := if 0 < std2 then std1 / std2 else 0
    s1 + alpha * s2)

/-- The ±2-sample symmetric moving average used for smoothing/detrending. -/
def smoothSignal (sig : List ℝ) : List ℝ :=
  (List.range sig.length).map (fun i =>
    let idx := List.range' (i - 2) (min (sig.length - 1) (i + 2) + 1 - (i - 2))
    (idx.map (fun j => sig.getD j 0)).sum / idx.length)

/-- The AC pulse signal: POS projection, smoothed, with the global mean removed. -/
def acSignal (rgb : List RGBSample) (fs : ℝ) : List ℝ :=
  let smoothed := smoothSignal (computePOS rgb fs)
  smoothed.map (fun v => v - mean smoothed)

/-- One iteration of the `detectPeaks` scan: a local maximum above the threshold
that is far enough from the last accepted peak is appended. -/
def peakStep (signal : List ℝ) (threshold : ℝ) (minDistance : ℤ)
    (acc : List ℕ × ℤ) (i : ℕ) : List ℕ × ℤ :=
  if signal.getD i 0 > threshold ∧ signal.getD i 0 > signal.getD (i - 1) 0 ∧
      signal.getD i 0 > signal.getD (i + 1) 0 ∧ (i : ℤ) - acc.2 > minDistance then
    (acc.1 ++ [i], (i : ℤ))
  else acc

/-- Peak detection, `detectPeaks`: adaptive threshold `mean + 0.5 * stddev`, local maxima, and a
minimum inter-peak distance of `floor(0.3 * fs)` samples. -/
def detectPeaks (signal : List ℝ) (fs : ℝ) : List ℕ :=
  let minDistance : ℤ := ⌊(0.3 : ℝ) * fs⌋
  let threshold := mean signal + stdDev signal * 0.5
  ((List.range' 1 (signal.length - 2)).foldl
    (peakStep signal threshold minDistance) ([], -minDistance)).1

structure ProcessingRequest where
  type : String
  rgbData : List RGBSample
  motionScore : ℝ
  sampleRate : ℝ

structure HRVPayload where
  rmssd : ℝ
  sdnn : ℝ
  stressIndex : ℝ

structure VitalsPayload where
  heartRate : ℝ
  respirationRate : ℝ
  hrv : HRVPayload
  confidence : ℝ
  snr : ℝ

inductive WorkerResponse
  | vitals_result (v : VitalsPayload)
  | error (message : String)

def processSignalType : String := "process_signal"

/-- The thrown message; JS `String(error)` additionally prefixes the error class
name, which is irrelevant to the claims. -/
def insufficientDataMsg : String := "Insufficient data"

def nFFT : ℕ := 512

/-- The zero-padded, Hamming-windowed signal handed to the DFT. -/
def fftSignal (ac : List ℝ) : List ℝ :=
  let wlen := min ac.length nFFT
  let w := hammingWindow wlen
  (List.range nFFT).map (fun i => if i < wlen then ac.getD i 0 * w.getD i 0 else 0)

/-- Power of one DFT bin (real/imaginary accumulation over the window length). -/
def binPower (f : List ℝ) (wlen bin : ℕ) : ℝ :=
  let k := 2 * Real.pi * bin / (nFFT : ℝ)
  let re := ((List.range wlen).map (fun n => f.getD n 0 * Real.cos (k * n))).sum
  let im := ((List.range wlen).map (fun n => -(f.getD n 0 * Real.sin (k * n)))).sum
  re * re + im * im

structure ScanAcc where
  maxPower : ℝ
  peakFreq : ℝ
  noisePower : ℝ

/-- The heart-rate band scan (bins for 0.66–3.66 Hz): running max power, its
frequency, and the total in-band power. -/
def hrScan (f : List ℝ) (wlen : ℕ) (fs : ℝ) : ScanAcc :=
  let minBin := (⌊(0.66 : ℝ) * nFFT / fs⌋).toNat
  let maxBin := (⌊(3.66 : ℝ) * nFFT / fs⌋).toNat
  (List.range' minBin (maxBin + 1 - minBin)).foldl
    (fun acc bin =>
      let power := binPower f wlen bin
      { maxPower := if power > acc.maxPower then power else acc.maxPower
        peakFreq := if power > acc.maxPower then (bin : ℝ) * fs / (nFFT : ℝ) else acc.peakFreq
        noisePower := acc.noisePower + power })
    ⟨0, 0, 0⟩

/-- The respiration band scan (bins for 0.1–0.5 Hz): max power and its frequency. -/
def respScan (f : List ℝ) (wlen : ℕ) (fs : ℝ) : ℝ × ℝ :=
  let respMinBin := (⌊(0.1 : ℝ) * nFFT / fs⌋).toNat
  let respMaxBin := (⌊(0.5 : ℝ) * nFFT / fs⌋).toNat
  (List.range' respMinBin (respMaxBin + 1 - respMinBin)).foldl
    (fun acc bin =>
      let power := binPower f wlen bin
      (if power > acc.1 then power else acc.1,
        if power > acc.1 then (bin : ℝ) * fs / (nFFT : ℝ) else acc.2))
    (0, 0)

def listMax : List ℝ → ℝ
  | [] => 0
  | h :: t => t.foldl max h

def listMin : List ℝ → ℝ
  | [] => 0
  | h :: t => t.foldl min h

def intervalsMs (peaks : List ℕ) (fs : ℝ) : List ℝ :=
  (List.range (peaks.length - 1)).map
    (fun i => ((peaks.getD (i + 1) 0 : ℝ) - (peaks.getD i 0 : ℝ)) * 1000 / fs)

/-- The HRV section: `(rmssd, sdnn, stressIndex)`, all zero when fewer than
3 peaks were detected (`peaks.length > 2` gate in the source). -/
def hrvOf (ac : List ℝ) (fs : ℝ) : ℝ × ℝ × ℝ :=
  let peaks := detectPeaks ac fs
  if 2 < peaks.length then
    let ints := intervalsMs peaks fs
    let sqDiffSum := ((List.range (ints.length - 1)).map
      (fun i => (ints.getD (i + 1) 0 - ints.getD i 0) ^ 2)).sum
    let rmssd := Real.sqrt (sqDiffSum / ((ints.length : ℝ) - 1))
    let sdnn := stdDev ints
    let mode := mean ints
    let rangeInt := listMax ints - listMin ints
    let stressIndex := 1000 / (2 * mode * jsOr rangeInt 1)
    (rmssd, sdnn, stressIndex)
  else (0, 0, 0)

/-- The successful branch of the worker `onmessage` handler. -/
def workerVitals (req : ProcessingRequest) : VitalsPayload :=
  let ac := acSignal req.rgbData req.sampleRate
  let f := fftSignal ac
  let wlen := min ac.length nFFT
  let scan := hrScan f wlen req.sampleRate
  let snr := if scan.noisePower > 0 then scan.maxPower / (scan.noisePower - scan.maxPower)
    else 0
  let hr := scan.peakFreq * 60
  let resp := respScan f wlen req.sampleRate
  let rr := resp.2 * 60
  let hrv := hrvOf ac req.sampleRate
  let motionPenalty := max 0 (1 - req.motionScore * 2)
  let snrScore := min 1 (snr / 10)
  { heartRate := hr
    respirationRate := rr
    hrv := { rmssd := hrv.1, sdnn := hrv.2.1, stressIndex := hrv.2.2 * 10000 }
    confidence := motionPenalty * snrScore
    snr := snr }

/-- The worker `onmessage` handler: the guard throw is caught and posted as a
typed error response; otherwise a vitals_result is posted. -/
def workerHandle (req : ProcessingRequest) : WorkerResponse :=
  if req.type ≠ processSignalType ∨ req.rgbData.length < 64 then
    WorkerResponse.error insufficientDataMsg
  else WorkerResponse.vitals_result (workerVitals req)

/-! ## C6 -/

/-- C6: every worker request whose rgb sample list has fewer than 64 samples gets
a typed error response, never a vitals_result. -/
theorem workerHandle_insufficient (req : ProcessingRequest)
    (h : req.rgbData.length < 64) :
    workerHandle req = WorkerResponse.error insufficientDataMsg := by
  unfold workerHandle
  rw [if_pos (Or.inr h)]

def reqSmall : ProcessingRequest :=
  { type := processSignalType
    rgbData := List.replicate 10 ⟨1, 1, 1, 0⟩
    motionScore := 0
    sampleRate := 30 }

theorem workerHandle_insufficient_witness :
    reqSmall.rgbData.length < 64 ∧
    workerHandle reqSmall = WorkerResponse.error insufficientDataMsg :=
  ⟨by simp [reqSmall], workerHandle_insufficient reqSmall (by simp [reqSmall])⟩

/-! ## C7 -/

/-- C7: a well-formed request with at least 64 samples on which fewer than 3 peaks
are detected on the AC pulse signal reports rmssd, sdnn and stressIndex all zero. -/
theorem workerHandle_few_peaks (req : ProcessingRequest)
    (htype : req.type = processSignalType) (hlen : 64 ≤ req.rgbData.length)
    (hpeaks : (detectPeaks (acSignal req.rgbData req.sampleRate) req.sampleRate).length < 3) :
    workerHandle req = WorkerResponse.vitals_result (workerVitals req) ∧
    (workerVitals req).hrv.rmssd = 0 ∧ (workerVitals req).hrv.sdnn = 0 ∧
    (workerVitals req).hrv.stressIndex = 0 := by
  have hz : hrvOf (acSignal req.rgbData req.sampleRate) req.sampleRate = (0, 0, 0) := by
    unfold hrvOf
    rw [if_neg (by omega)]
  have h1 : (workerVitals req).hrv.rmssd =
      (hrvOf (acSignal req.rgbData req.sampleRate) req.sampleRate).1 := rfl
  have h2 : (workerVitals req).hrv.sdnn =
      (hrvOf (acSignal req.rgbData req.sampleRate) req.sampleRate).2.1 := rfl
  have h3 : (workerVitals req).hrv.stressIndex =
      (hrvOf (acSignal req.rgbData req.sampleRate) req.sampleRate).2.2 * 10000 := rfl
  refine ⟨?_, ?_, ?_, ?_⟩
  · unfold workerHandle
    rw [if_neg]
    push_neg
    exact ⟨htype, hlen⟩
  · rw [h1, hz]
  · rw [h2, hz]
  · rw [h3, hz]
    norm_num

/-! ### Evaluation of the pipeline on a constant buffer (all samples equal) -/

theorem mean_replicate_pos (n : ℕ) (x : ℝ) (hn : n ≠ 0) :
    mean (List.replicate n x) = x := by
  unfold mean
  rw [List.sum_replicate, List.length_replicate, nsmul_eq_mul,
    mul_div_cancel_left₀ x (Nat.cast_ne_zero.mpr hn)]

theorem mean_replicate_zero (n : ℕ) : mean (List.replicate n (0:ℝ)) = 0 := by
  unfold mean
  rw [List.sum_replicate]
  simp

theorem stdDev_replicate (n : ℕ) (x : ℝ) : stdDev (List.replicate n x) = 0 := by
  rcases Nat.eq_zero_or_pos n with h | h
  · subst h
    unfold stdDev mean
    simp
  · unfold stdDev
    rw [mean_replicate_pos n x h.ne', List.map_replicate]
    simp

theorem getD_replicate {α : Type} {x d : α} : ∀ (n i : ℕ), i < n →
    (List.replicate n x).getD i d = x := by
  intro n
  induction n with
  | zero => intro i h; omega
  | succ n ih =>
    intro i h
    cases i with
    | zero => rw [List.replicate_succ, List.getD_cons_zero]
    | succ i =>
      rw [List.replicate_succ, List.getD_cons_succ]
      exact ih i (by omega)

theorem getD_replicate_zero (n i : ℕ) : (List.replicate n (0:ℝ)).getD i 0 = 0 := by
  rcases lt_or_ge i n with h | h
  · exact getD_replicate n i h
  · exact List.getD_eq_default _ _ (by simpa using h)

theorem foldl_fixed {α β : Type} (f : β → α → β) (l : List α) (init : β)
    (h : ∀ b a, a ∈ l → f b a = b) : l.foldl f init = init := by
  induction l generalizing init with
  | nil => rfl
  | cons x xs ih =>
    rw [List.foldl_cons, h init x (List.mem_cons_self x xs)]
    exact ih init (fun b a ha => h b a (List.mem_cons_of_mem x ha))

theorem peakStep_replicate_zero (n : ℕ) (m : ℤ) (b : List ℕ × ℤ) (a : ℕ) :
    peakStep (List.replicate n (0:ℝ))
      (mean (List.replicate n (0:ℝ)) + stdDev (List.replicate n (0:ℝ)) * 0.5) m b a = b := by
  unfold peakStep
  rw [if_neg]
  intro hcon
  have h1 := hcon.1
  rw [getD_replicate_zero, mean_replicate_zero, stdDev_replicate] at h1
  norm_num at h1

theorem detectPeaks_replicate_zero (n : ℕ) (fs : ℝ) :
    detectPeaks (List.replicate n (0:ℝ)) fs = [] := by
  unfold detectPeaks
  exact congrArg Prod.fst
    (foldl_fixed _ _ _ (fun b a _ => peakStep_replicate_zero n _ b a))

def sampleOnes : RGBSample := ⟨1, 1, 1, 0⟩

theorem posWindowSize_30 : posWindowSize 30 = 48 := by
  unfold posWindowSize
  rw [show (1.6:ℝ) * 30 = ((48:ℤ):ℝ) by norm_num, Int.floor_intCast]
  rfl

theorem posSegment_replicate (n w i : ℕ) :
    posSegment (List.replicate n sampleOnes) w i =
      List.replicate ((min n (i + w) - (i - w)) ⊓ (n - (i - w))) sampleOnes := by
  unfold posSegment
  rw [List.length_replicate, List.drop_replicate, List.take_replicate]

theorem computePOS_replicate_ones (n : ℕ) :
    computePOS (List.replicate n sampleOnes) 30 = List.replicate n 0 := by
  unfold computePOS
  rw [List.length_replicate, posWindowSize_30]
  refine List.eq_replicate_iff.mpr ⟨by simp, ?_⟩
  intro x hx
  simp only [List.mem_map, List.mem_range] at hx
  obtain ⟨i, hi, rfl⟩ := hx
  rw [posSegment_replicate]
  set M := (min n (i + 48) - (i - 48)) ⊓ (n - (i - 48)) with hM
  have hM1 : M ≠ 0 := by omega
  have hmean : ∀ y : ℝ, mean (List.replicate M y) = y := fun y => mean_replicate_pos M y hM1
  have hjs : jsOr (1:ℝ) 1 = 1 := by
    unfold jsOr
    rw [if_neg]
    norm_num
  simp only [List.map_replicate, hmean, sampleOnes, hjs, getD_replicate n i hi,
    stdDev_replicate]
  rw [if_neg (lt_irrefl 0)]
  norm_num

theorem smoothSignal_replicate_zero (n : ℕ) :
    smoothSignal (List.replicate n (0:ℝ)) = List.replicate n 0 := by
  unfold smoothSignal
  rw [List.length_replicate]
  refine List.eq_replicate_iff.mpr ⟨by simp, ?_⟩
  intro x hx
  simp only [List.mem_map, List.mem_range] at hx
  obtain ⟨i, hi, rfl⟩ := hx
  have hsum : ((List.range' (i - 2) (min (n - 1) (i + 2) + 1 - (i - 2))).map
      (fun j => (List.replicate n (0:ℝ)).getD j 0)).sum = 0 := by
    apply List.sum_eq_zero
    intro y hy
    simp only [List.mem_map] at hy
    obtain ⟨j, hj, rfl⟩ := hy
    exact getD_replicate_zero n j
  rw [hsum, zero_div]

theorem acSignal_replicate_ones (n : ℕ) :
    acSignal (List.replicate n sampleOnes) 30 = List.replicate n 0 := by
  unfold acSignal
  rw [computePOS_replicate_ones, smoothSignal_replicate_zero]
  show List.map (fun v => v - mean (List.replicate n (0:ℝ))) (List.replicate n 0) =
    List.replicate n 0
  rw [mean_replicate_zero]
  simp

def reqConst : ProcessingRequest :=
  { type := processSignalType
    rgbData := List.replicate 64 sampleOnes
    motionScore := 0
    sampleRate := 30 }

theorem workerHandle_few_peaks_witness :
    reqConst.type = processSignalType ∧ 64 ≤ reqConst.rgbData.length ∧
    (detectPeaks (acSignal reqConst.rgbData reqConst.sampleRate)
      reqConst.sampleRate).length < 3 ∧
    (workerHandle reqConst = WorkerResponse.vitals_result (workerVitals reqConst) ∧
      (workerVitals reqConst).hrv.rmssd = 0 ∧ (workerVitals reqConst).hrv.sdnn = 0 ∧
      (workerVitals reqConst).hrv.stressIndex = 0) := by
  have hr : reqConst.rgbData = List.replicate 64 sampleOnes := rfl
  have hs : reqConst.sampleRate = 30 := rfl
  have hpk : (detectPeaks (acSignal reqConst.rgbData reqConst.sampleRate)
      reqConst.sampleRate).length < 3 := by
    rw [hr, hs, acSignal_replicate_ones, detectPeaks_replicate_zero]
    norm_num
  refine ⟨rfl, ?_, hpk, workerHandle_few_peaks reqConst rfl ?_ hpk⟩
  · rw [hr, List.length_replicate]
  · rw [hr, List.length_replicate]

/-! ## CameraVitalsEngine (src/services/GeminiSomaticBridge.ts, second unit):
vitals decay on face loss and the worker-response mapping -/

inductive SignalQuality
  | excellent
  | good
  | fair
  | poor
deriving DecidableEq

inductive MoodLabel
  | anxious
  | calm
  | focused
  | neutral
  | distracted
deriving DecidableEq

structure AffectiveState where
  valence : ℝ
  arousal : ℝ
  mood_label : MoodLabel

structure VitalSigns where
  heartRate : ℝ
  respirationRate : Option ℝ
  hrv : Option HRVPayload
  affective : Option AffectiveState
  confidence : ℝ
  signalQuality : SignalQuality
  snr : ℝ
  motionLevel : ℝ

/-- Face-loss decay, `CameraVitalsEngine.decayVitals`: copy the last-known vitals, decay the
confidence by 0.95, and downgrade the quality tier from the decayed confidence. -/
def decayVitals (v : VitalSigns) : VitalSigns :=
  { v with
    confidence := v.confidence * 0.95
    signalQuality :=
      if v.confidence * 0.95 > 0.4 then SignalQuality.fair else SignalQuality.poor }

/-- The worker-response mapping, `CameraVitalsEngine.mapWorkerResponse`. -/
def mapWorkerResponse (res : VitalsPayload) : VitalSigns :=
  { heartRate := res.heartRate
    respirationRate := some res.respirationRate
    hrv := some res.hrv
    affective := none
    confidence := res.confidence
    signalQuality :=
      if res.confidence > 0.7 then SignalQuality.excellent
      else if res.confidence > 0.4 then SignalQuality.good else SignalQuality.poor
    snr := res.snr
    motionLevel := 0 }

/-! ## C10 -/

/-- C10: on face loss the returned vitals keep heartRate, respirationRate, hrv,
snr and motionLevel unchanged; only confidence (multiplied by 0.95) and
signalQuality (fair if the decayed confidence exceeds 0.4, else poor) change —
and the fair tier is one the worker-response mapping never produces. -/
theorem decayVitals_spec (v : VitalSigns) (res : VitalsPayload) :
    (decayVitals v).heartRate = v.heartRate ∧
    (decayVitals v).respirationRate = v.respirationRate ∧
    (decayVitals v).hrv = v.hrv ∧
    (decayVitals v).snr = v.snr ∧
    (decayVitals v).motionLevel = v.motionLevel ∧
    (decayVitals v).confidence = v.confidence * 0.95 ∧
    (decayVitals v).signalQuality =
      (if v.confidence * 0.95 > 0.4 then SignalQuality.fair else SignalQuality.poor) ∧
    (mapWorkerResponse res).signalQuality ≠ SignalQuality.fair := by
  refine ⟨rfl, rfl, rfl, rfl, rfl, rfl, rfl, ?_⟩
  unfold mapWorkerResponse
  dsimp only
  split
  · simp
  · split <;> simp

/-! ## Kernel safety guard (C1), modelled from the spec -/

inductive KernelStatus
  | IDLE
  | RUNNING
  | PAUSED
  | SAFETY_LOCK
deriving DecidableEq

inductive InterdictionAction
  | EMERGENCY_HALT
  | REJECT_START
  | PATTERN_LOCKED
deriving DecidableEq

inductive KEvent
  | BOOT
  | LOAD_PROTOCOL
  | START_SESSION
  | TICK
  | BELIEF_UPDATE
  | PHASE_TRANSITION
  | CYCLE_COMPLETE
  | INTERRUPTION
  | RESUME
  | HALT
  | SAFETY_INTERDICTION (action : InterdictionAction) (riskLevel : ℝ)
  | LOAD_SAFETY_REGISTRY
  | ADJUST_TEMPO

/-- Modelled from the spec: the persistence write whitelist of `dispatch`
(spec §4.1) — only START_SESSION, HALT, SAFETY_INTERDICTION, CYCLE_COMPLETE and
ADJUST_TEMPO are forwarded to the external persistence. -/
def persistWhitelist : KEvent → Bool
  | KEvent.START_SESSION => true
  | KEvent.HALT => true
  | KEvent.SAFETY_INTERDICTION _ _ => true
  | KEvent.CYCLE_COMPLETE => true
  | KEvent.ADJUST_TEMPO => true
  | _ => false

/-- The source constant `SafetyConfig.safety.minSessionSecBeforeEmergency`. -/
def minSessionSecBeforeEmergency : ℝ := 10

structure KernelState where
  status : KernelStatus
  sessionSec : ℝ
  belief : BeliefState
  log : List KEvent
  persisted : List KEvent

/-- Modelled from the spec: the kernel safety guard intercepting BELIEF_UPDATE
(`PureZenBKernel` itself is not among the source files; only its test suite and
`SafetyConfig` are). Spec §4.2 rules 1 and 3: if `prediction_error > 0.95` and
the elapsed session time is at least the configured minimum, emit
SAFETY_INTERDICTION(EMERGENCY_HALT, riskLevel = prediction_error), force status
to SAFETY_LOCK and persist that event unconditionally, bypassing the write
whitelist; below the minimum the emergency halt is suppressed, the status is
unchanged, and the (non-whitelisted) BELIEF_UPDATE is not persisted. -/
def applyBeliefUpdate (minSession : ℝ) (st : KernelState) (b : BeliefState) :
    KernelState :=
  if 0.95 < b.prediction_error ∧ minSession ≤ st.sessionSec then
    { st with
      status := KernelStatus.SAFETY_LOCK
      belief := b
      log := KEvent.SAFETY_INTERDICTION InterdictionAction.EMERGENCY_HALT
        b.prediction_error :: KEvent.BELIEF_UPDATE :: st.log
      persisted := KEvent.SAFETY_INTERDICTION InterdictionAction.EMERGENCY_HALT
        b.prediction_error :: st.persisted }
  else
    { st with
      belief := b
      log := KEvent.BELIEF_UPDATE :: st.log
      persisted :=
        if persistWhitelist KEvent.BELIEF_UPDATE then KEvent.BELIEF_UPDATE :: st.persisted
        else st.persisted }

/-! ## C1 -/

/-- C1 (spec-modelled): a BELIEF_UPDATE with `prediction_error > 0.95` forces
SAFETY_LOCK and an unconditional persistence write of the interdiction event
when the session time is at least the configured minimum (10 s) — even though
BELIEF_UPDATE itself is not on the write whitelist — and leaves the status
unchanged with nothing persisted before that minimum. -/
theorem beliefUpdate_safety_gate (st : KernelState) (b : BeliefState)
    (hpe : 0.95 < b.prediction_error) :
    (minSessionSecBeforeEmergency ≤ st.sessionSec →
      (applyBeliefUpdate minSessionSecBeforeEmergency st b).status =
        KernelStatus.SAFETY_LOCK ∧
      (applyBeliefUpdate minSessionSecBeforeEmergency st b).persisted =
        KEvent.SAFETY_INTERDICTION InterdictionAction.EMERGENCY_HALT
          b.prediction_error :: st.persisted) ∧
    (st.sessionSec < minSessionSecBeforeEmergency →
      (applyBeliefUpdate minSessionSecBeforeEmergency st b).status = st.status ∧
      (applyBeliefUpdate minSessionSecBeforeEmergency st b).persisted = st.persisted) ∧
    persistWhitelist KEvent.BELIEF_UPDATE = false := by
  refine ⟨?_, ?_, rfl⟩
  · intro hs
    unfold applyBeliefUpdate
    rw [if_pos ⟨hpe, hs⟩]
    exact ⟨rfl, rfl⟩
  · intro hs
    unfold applyBeliefUpdate
    rw [if_neg (fun h : _ ∧ _ => absurd h.2 (not_le.mpr hs))]
    exact ⟨rfl, rfl⟩

/-- The dangerous belief injected by the kernel test suite. -/
def bC1 : BeliefState :=
  { arousal := 1.0
    attention := 0.0
    rhythm_alignment := 0.0
    valence := -0.8
    arousal_variance := 0
    attention_variance := 0
    rhythm_variance := 0
    prediction_error := 0.99
    innovation := 1.0
    mahalanobis_distance := 10.0
    confidence := 0 }

def stRun : KernelState :=
  { status := KernelStatus.RUNNING
    sessionSec := 15
    belief := initialBelief
    log := []
    persisted := [] }

def stEarly : KernelState :=
  { status := KernelStatus.RUNNING
    sessionSec := 5
    belief := initialBelief
    log := []
    persisted := [] }

theorem beliefUpdate_safety_gate_witness :
    (0.95:ℝ) < bC1.prediction_error ∧
    ((applyBeliefUpdate minSessionSecBeforeEmergency stRun bC1).status =
        KernelStatus.SAFETY_LOCK ∧
      (applyBeliefUpdate minSessionSecBeforeEmergency stRun bC1).persisted =
        KEvent.SAFETY_INTERDICTION InterdictionAction.EMERGENCY_HALT
          bC1.prediction_error :: stRun.persisted) ∧
    ((applyBeliefUpdate minSessionSecBeforeEmergency stEarly bC1).status =
        stEarly.status ∧
      (applyBeliefUpdate minSessionSecBeforeEmergency stEarly bC1).persisted =
        stEarly.persisted) := by
  refine ⟨by norm_num [bC1], ?_, ?_⟩
  · exact (beliefUpdate_safety_gate stRun bC1 (by norm_num [bC1])).1
      (by norm_num [minSessionSecBeforeEmergency, stRun])
  · exact (beliefUpdate_safety_gate stEarly bC1 (by norm_num [bC1])).2.1
      (by norm_num [minSessionSecBeforeEmergency, stEarly])

end AZen
